import Mathlib

/-!
Shallow embedding of the log modules of the sdk-node repository:
src/sdk/invoice/log/log.js, src/sdk/corporateCard/log/log.js and
src/sdk/utilityPayment/log/log.js, together with models of the shared
collaborators (utils/check.js, utils/rest.js, utils/resource.js) that the
repository uses but whose sources are not part of this file set; those
models follow the specification's description of the collaborators.
-/

namespace SdkNode

/-- Model of the three-way state of a JavaScript optional value: a field can
be absent (undefined), explicitly null, or hold a value. -/
inductive JOpt (α : Type) where
  | undef : JOpt α
  | null : JOpt α
  | val : α → JOpt α
deriving DecidableEq

/-- JavaScript destructuring default to null: an undefined argument
becomes null, every other argument is kept. -/
def JOpt.withDefaultNull {α : Type} : JOpt α → JOpt α
  | .undef => .null
  | .null => .null
  | .val a => .val a

/-- Modelled from the spec: the error taxonomy of section 7 (ValidationError,
AuthError, NotFound, TransportError, RateLimitError). -/
inductive ApiError where
  | validationError : ApiError
  | authError : ApiError
  | notFound : ApiError
  | transportError : ApiError
  | rateLimitError : ApiError
deriving DecidableEq

/-- Structured timestamp produced by parsing a date or datetime string. -/
structure Timestamp where
  year : Nat
  month : Nat
  day : Nat
  hour : Nat
  minute : Nat
  second : Nat
  millisecond : Nat
deriving DecidableEq

/-- Split a character list at every occurrence of the separator. -/
def splitOnChar (c : Char) : List Char → List (List Char)
  | [] => [[]]
  | x :: xs =>
    let r := splitOnChar c xs
    if x = c then [] :: r
    else
      match r with
      | [] => [[x]]
      | h :: t => (x :: h) :: t

/-- Read a non-empty all-digit character list as a natural number. -/
def digitsToNat : List Char → Option Nat
  | [] => none
  | cs =>
    if cs.all (fun c => c.isDigit) then
      some (cs.foldl (fun a c => a * 10 + (c.toNat - 48)) 0)
    else none

/-- Parse a calendar date YYYY-MM-DD with plausibility bounds on month and
day; fails on anything else. -/
def parseDatePart (cs : List Char) : Option (Nat × Nat × Nat) :=
  match splitOnChar (Char.ofNat 45) cs with
  | [y, m, d] =>
    match digitsToNat y, digitsToNat m, digitsToNat d with
    | some yn, some mn, some dn =>
      if 1 ≤ mn && mn ≤ 12 && 1 ≤ dn && dn ≤ 31 then some (yn, mn, dn) else none
    | _, _, _ => none
  | _ => none

/-- Parse the seconds part SS or SS.mmm of a time-of-day string. -/
def parseSecondPart (cs : List Char) : Option (Nat × Nat) :=
  match splitOnChar (Char.ofNat 46) cs with
  | [s] =>
    match digitsToNat s with
    | some sn => if sn ≤ 59 then some (sn, 0) else none
    | none => none
  | [s, ms] =>
    match digitsToNat s, digitsToNat ms with
    | some sn, some msn => if sn ≤ 59 && msn ≤ 999 then some (sn, msn) else none
    | _, _ => none
  | _ => none

/-- Parse a time of day HH:MM:SS or HH:MM:SS.mmm. -/
def parseTimePart (cs : List Char) : Option (Nat × Nat × Nat × Nat) :=
  match splitOnChar (Char.ofNat 58) cs with
  | [h, mi, rest] =>
    match digitsToNat h, digitsToNat mi, parseSecondPart rest with
    | some hn, some min, some (sn, msn) =>
      if hn ≤ 23 && min ≤ 59 then some (hn, min, sn, msn) else none
    | _, _, _ => none
  | _ => none

/-- Modelled from the spec: utils/check.js datetime check (the file is not
under src/). Section 4.1: construction parses a date or datetime string into
a structured timestamp, failing on unparseable input. Accepts a bare date
YYYY-MM-DD or a datetime YYYY-MM-DD HH:MM:SS.mmm, returning none exactly when
the string fits neither shape. -/
def checkDatetime (s : String) : Option Timestamp :=
  match splitOnChar (Char.ofNat 32) s.toList with
  | [d] =>
    match parseDatePart d with
    | some (y, m, dd) => some ⟨y, m, dd, 0, 0, 0, 0⟩
    | none => none
  | [d, t] =>
    match parseDatePart d, parseTimePart t with
    | some (y, m, dd), some (h, mi, ss, ms) => some ⟨y, m, dd, h, mi, ss, ms⟩
    | _, _ => none
  | _ => none

/-- Modelled from the spec: utils/check.js date check (the file is not under
src/). The spec describes one timestamp normalization for construction — a
date or datetime string parsed into a structured timestamp — so the date
check accepts the same shapes as the datetime check. -/
def checkDate (s : String) : Option Timestamp :=
  checkDatetime s

/-- Raw record for an invoice log, with the fields destructured by the
invoice Log constructor, in destructuring order: created, type, errors,
invoice, id. The invoice entity is kept as its serialized payload. -/
structure InvoiceRawRecord where
  created : String
  type : String
  errors : List String
  invoice : String
  id : JOpt String
deriving DecidableEq

/-- Invoice Log entity: the fields assigned by the constructor of
src/sdk/invoice/log/log.js together with the id assigned through the
Resource base class, which is modelled from the spec (utils/resource.js is
not under src/) as storing the id it is passed. -/
structure InvoiceLog where
  id : JOpt String
  created : Timestamp
  type : String
  errors : List String
  invoice : String
deriving DecidableEq

/-- Embeds the Log constructor of src/sdk/invoice/log/log.js, lines 24-30:
destructures created, type, errors, invoice, id; passes id to the base
class; assigns created through check.date and the other fields verbatim.
An unparseable created string raises ValidationError. -/
def InvoiceLog.construct (r : InvoiceRawRecord) : Except ApiError InvoiceLog :=
  match checkDate r.created with
  | some ts => .ok ⟨r.id, ts, r.type, r.errors, r.invoice⟩
  | none => .error .validationError

/-- Raw record for a corporate card log: the fields the corporateCard Log
constructor destructures (id, card, type, created) together with an errors
entry that the raw payload may carry; the constructor never destructures
errors, which the embedding keeps explicit so that its discarding is
provable. -/
structure CorporateCardRawRecord where
  id : JOpt String
  card : String
  type : String
  created : String
  errors : JOpt (List String)
deriving DecidableEq

/-- Corporate card Log entity: exactly the fields assigned by the
constructor of src/sdk/corporateCard/log/log.js — id (through the base
class), card, type, created. There is no errors field. -/
structure CorporateCardLog where
  id : JOpt String
  card : String
  type : String
  created : Timestamp
deriving DecidableEq

/-- Embeds the Log constructor of src/sdk/corporateCard/log/log.js, lines
21-26: destructures id, card, type, created; assigns card and type
verbatim and created through check.datetime. Any errors entry of the raw
record is not read. An unparseable created string raises ValidationError. -/
def CorporateCardLog.construct (r : CorporateCardRawRecord) : Except ApiError CorporateCardLog :=
  match checkDatetime r.created with
  | some ts => .ok ⟨r.id, r.card, r.type, ts⟩
  | none => .error .validationError

/-- Utility payment Log entity: the fields assigned by the constructor of
src/sdk/utilityPayment/log/log.js. Its created field is a plain string:
that constructor stores created verbatim, with no check call. -/
structure UtilityPaymentLog where
  id : JOpt String
  created : String
  type : String
  errors : List String
  payment : String
deriving DecidableEq

/-- Embeds the Log constructor of src/sdk/utilityPayment/log/log.js, lines
22-28: positional parameters created, type, errors, payment, id — not a
destructured object — and every field, created included, stored verbatim.
The function is total: no input raises an error. -/
def UtilityPaymentLog.construct (created : String) (type : String)
    (errors : List String) (payment : String) (id : JOpt String) :
    UtilityPaymentLog :=
  ⟨id, created, type, errors, payment⟩

/-- The utilityPayment Log constructor called with the trailing id argument
omitted: the JS parameter default id = null applies. -/
def UtilityPaymentLog.constructNoId (created : String) (type : String)
    (errors : List String) (payment : String) : UtilityPaymentLog :=
  UtilityPaymentLog.construct created type errors payment JOpt.null

/-- Raw record for a utility payment log as delivered by the gateway, in
the constructor's positional order. -/
structure UtilityPaymentRawRecord where
  created : String
  type : String
  errors : List String
  payment : String
  id : JOpt String
deriving DecidableEq

/-- Mapping of a raw utility payment record through the Log class; always
succeeds because that constructor validates nothing. -/
def UtilityPaymentLog.constructRecord (r : UtilityPaymentRawRecord) :
    Except ApiError UtilityPaymentLog :=
  .ok (UtilityPaymentLog.construct r.created r.type r.errors r.payment r.id)

/-- Module-level resource descriptor: the pair of the endpoint namespace
name and the Log class, here the class as the raw-record-to-entity mapping
it induces. Each log module defines one such value and passes it to every
rest helper. -/
structure Resource (ρ ε : Type) where
  name : String
  construct : ρ → Except ApiError ε

/-- Descriptor of src/sdk/invoice/log/log.js, line 34. -/
def invoiceResource : Resource InvoiceRawRecord InvoiceLog :=
  ⟨"InvoiceLog", InvoiceLog.construct⟩

/-- Descriptor of src/sdk/corporateCard/log/log.js, line 30. -/
def corporateCardResource : Resource CorporateCardRawRecord CorporateCardLog :=
  ⟨"corporateCardLog", CorporateCardLog.construct⟩

/-- Descriptor of src/sdk/utilityPayment/log/log.js, line 32. -/
def utilityPaymentResource : Resource UtilityPaymentRawRecord UtilityPaymentLog :=
  ⟨"UtilityPaymentLog", UtilityPaymentLog.constructRecord⟩

/-- Result of a rest-layer operation together with the endpoint namespace
name it was dispatched to, making the dispatch observable. -/
structure Dispatched (α : Type) where
  resourceName : String
  result : α
deriving DecidableEq

/-- An auth context is kept as an optional value; the client only passes
it through to the gateway. -/
abbrev AuthContext := JOpt String

/-- Modelled from the spec: rest.getId of utils/rest.js (not under src/).
Section 4.2: delegates to the gateway fetch-by-id scoped to this resource
kind's endpoint namespace, maps the raw response to a Log entity through
the resource's class, and passes every gateway error through unchanged. -/
def restGetId {ρ ε : Type}
    (fetchById : String → String → AuthContext → Except ApiError ρ)
    (res : Resource ρ ε) (id : String) (user : AuthContext) :
    Dispatched (Except ApiError ε) :=
  ⟨res.name,
    match fetchById res.name id user with
    | .ok r => res.construct r
    | .error e => .error e⟩

/-- Map each raw record of a list through the resource's class, stopping at
the first construction error, as the rest layer does while materializing
entities. -/
def mapRecords {ρ ε : Type} (f : ρ → Except ApiError ε) :
    List ρ → Except ApiError (List ε)
  | [] => .ok []
  | x :: xs =>
    match f x with
    | .error e => .error e
    | .ok y =>
      match mapRecords f xs with
      | .error e => .error e
      | .ok ys => .ok (y :: ys)

/-- Modelled from the spec: the page walk inside rest.getList (not under
src/). Section 4.3: the sequence transparently walks gateway pagination
until limit items have been yielded or the underlying collection is
exhausted; with an absent or null limit the client imposes no bound. -/
def walkPages {ρ : Type} (limit : JOpt Nat) : List (List ρ) → List ρ
  | [] => []
  | p :: ps =>
    match limit with
    | .val n => p.take n ++ walkPages (.val (n - (p.take n).length)) ps
    | .null => p ++ walkPages .null ps
    | .undef => p ++ walkPages .undef ps

/-- Modelled from the spec: rest.getList of utils/rest.js (not under src/).
The gateway serves the matching collection in server-chosen pages; the
helper walks those pages until the limit of the query is reached or the
pages are exhausted and maps each raw record through the resource's
class. -/
def restGetList {ρ ε : Type} (res : Resource ρ ε) (limit : JOpt Nat)
    (pages : List (List ρ)) : Dispatched (Except ApiError (List ε)) :=
  ⟨res.name, mapRecords res.construct (walkPages limit pages)⟩

deriving instance DecidableEq for Except

/-- Result of a page call: the entities of the page, the cursor to the next
page (null when the collection is exhausted), and the number of gateway
calls the operation performed. -/
structure PageResult (ε : Type) where
  entities : Except ApiError (List ε)
  cursor : JOpt Nat
  gatewayCalls : Nat
deriving DecidableEq

/-- Position in the matching collection denoted by a cursor: an absent or
null cursor starts at the beginning. -/
def cursorStart : JOpt Nat → Nat
  | .val c => c
  | .null => 0
  | .undef => 0

/-- Page size the gateway serves: min(limit, 100) when a limit is given,
100 — the documented maximum — when the limit is absent or null. -/
def pageCap : JOpt Nat → Nat
  | .val l => min l 100
  | .null => 100
  | .undef => 100

/-- Modelled from the spec: rest.getPage of utils/rest.js (not under src/)
together with the gateway fetchPage it calls once. Section 4.4: a single
gateway call returning at most 100 entities plus a new cursor, null meaning
no further pages. The opaque cursor is modelled as a position in the
matching collection. -/
def restGetPage {ρ ε : Type} (res : Resource ρ ε) (cursor : JOpt Nat)
    (limit : JOpt Nat) (matching : List ρ) : Dispatched (PageResult ε) :=
  let start := cursorStart cursor
  let chunk := (matching.drop start).take (pageCap limit)
  ⟨res.name,
    ⟨mapRecords res.construct chunk,
     if start + chunk.length < matching.length then .val (start + chunk.length)
     else .null,
     1⟩⟩

/-- Modelled from the spec: rest.getPdf of utils/rest.js (not under src/).
Section 4.5 and 6: fetchBinary scoped to the resource name, returning raw
bytes, every gateway error passed through unchanged. -/
def restGetPdf {ρ ε : Type}
    (fetchBinary : String → String → AuthContext → Except ApiError (List Nat))
    (res : Resource ρ ε) (id : String) (user : AuthContext) :
    Dispatched (Except ApiError (List Nat)) :=
  ⟨res.name, fetchBinary res.name id user⟩

/-- Query object built by the invoice query function, lines 57-84: the
fields limit, after, before, types, invoiceIds, holding whatever the
destructuring produced. -/
structure InvoiceQueryObject where
  limit : JOpt Nat
  after : JOpt String
  before : JOpt String
  types : JOpt (List String)
  invoiceIds : JOpt (List String)
deriving DecidableEq

/-- Embeds the query-object construction of exports.query of
src/sdk/invoice/log/log.js: the argument object is destructured without
defaults, so an omitted field arrives as undefined and is placed in the
query object as it is. -/
def invoiceQueryObject (limit : JOpt Nat) (after : JOpt String)
    (before : JOpt String) (types : JOpt (List String))
    (invoiceIds : JOpt (List String)) : InvoiceQueryObject :=
  ⟨limit, after, before, types, invoiceIds⟩

/-- Query object built by the corporateCard query function, lines 52-82:
ids, limit, after, before, types, cardIds. -/
structure CorporateCardQueryObject where
  ids : JOpt (List String)
  limit : JOpt Nat
  after : JOpt String
  before : JOpt String
  types : JOpt (List String)
  cardIds : JOpt (List String)
deriving DecidableEq

/-- Embeds the query-object construction of exports.query of
src/sdk/corporateCard/log/log.js: destructured without defaults, fields
placed verbatim. -/
def corporateCardQueryObject (limit : JOpt Nat) (cardIds : JOpt (List String))
    (types : JOpt (List String)) (after : JOpt String) (before : JOpt String)
    (ids : JOpt (List String)) : CorporateCardQueryObject :=
  ⟨ids, limit, after, before, types, cardIds⟩

/-- Query object built by the utilityPayment query function, lines 55-82:
limit, after, before, types, paymentIds. -/
structure UtilityPaymentQueryObject where
  limit : JOpt Nat
  after : JOpt String
  before : JOpt String
  types : JOpt (List String)
  paymentIds : JOpt (List String)
deriving DecidableEq

/-- Embeds the query-object construction of exports.query of
src/sdk/utilityPayment/log/log.js: every destructured parameter carries the
default null, so an omitted (undefined) field becomes null before the query
object is built. -/
def utilityPaymentQueryObject (limit : JOpt Nat) (after : JOpt String)
    (before : JOpt String) (types : JOpt (List String))
    (paymentIds : JOpt (List String)) : UtilityPaymentQueryObject :=
  ⟨limit.withDefaultNull, after.withDefaultNull, before.withDefaultNull,
   types.withDefaultNull, paymentIds.withDefaultNull⟩

/-- Modelled from the spec: gateway-side filter matching for invoice logs.
Section 4.3: types restricts the event type, invoiceIds the parent invoice,
after and before are inclusive creation-date bounds on the ISO-ordered
created string; an undefined or null field imposes no constraint. -/
def invoiceMatches (q : InvoiceQueryObject) (r : InvoiceRawRecord) : Bool :=
  (match q.types with | .val ts => ts.contains r.type | _ => true) &&
  (match q.invoiceIds with | .val ids => ids.contains r.invoice | _ => true) &&
  (match q.after with | .val a => decide (a ≤ r.created) | _ => true) &&
  (match q.before with | .val b => decide (r.created ≤ b) | _ => true)

/-- Embeds exports.get of src/sdk/invoice/log/log.js, lines 37-55: builds
no state of its own and returns rest.getId(resource, id, user). -/
def invoiceGet (fetchById : String → String → AuthContext → Except ApiError InvoiceRawRecord)
    (id : String) (user : AuthContext) : Dispatched (Except ApiError InvoiceLog) :=
  restGetId fetchById invoiceResource id user

/-- Embeds exports.query of src/sdk/invoice/log/log.js, lines 57-84: builds
the query object and returns rest.getList(resource, query, user). The
gateway is abstracted as the pages it serves for a query object. -/
def invoiceQuery (serverPages : InvoiceQueryObject → List (List InvoiceRawRecord))
    (limit : JOpt Nat) (after : JOpt String) (before : JOpt String)
    (types : JOpt (List String)) (invoiceIds : JOpt (List String)) :
    Dispatched (Except ApiError (List InvoiceLog)) :=
  restGetList invoiceResource limit
    (serverPages (invoiceQueryObject limit after before types invoiceIds))

/-- Embeds exports.page of src/sdk/invoice/log/log.js, lines 86-116: builds
the query object with the cursor and returns rest.getPage(resource, query,
user); the gateway serves pages of the matching slice of the remote
collection. -/
def invoicePage (remote : List InvoiceRawRecord) (cursor : JOpt Nat)
    (limit : JOpt Nat) (after : JOpt String) (before : JOpt String)
    (types : JOpt (List String)) (invoiceIds : JOpt (List String)) :
    Dispatched (PageResult InvoiceLog) :=
  restGetPage invoiceResource cursor limit
    (remote.filter (invoiceMatches (invoiceQueryObject limit after before types invoiceIds)))

/-- Embeds exports.pdf of src/sdk/invoice/log/log.js, lines 118-136:
returns rest.getPdf(resource, id, ..., user). -/
def invoicePdf (fetchBinary : String → String → AuthContext → Except ApiError (List Nat))
    (id : String) (user : AuthContext) : Dispatched (Except ApiError (List Nat)) :=
  restGetPdf fetchBinary invoiceResource id user

/-- Embeds exports.get of src/sdk/corporateCard/log/log.js, lines 32-50. -/
def corporateCardGet
    (fetchById : String → String → AuthContext → Except ApiError CorporateCardRawRecord)
    (id : String) (user : AuthContext) : Dispatched (Except ApiError CorporateCardLog) :=
  restGetId fetchById corporateCardResource id user

/-- Embeds exports.query of src/sdk/corporateCard/log/log.js, lines 52-82. -/
def corporateCardQuery
    (serverPages : CorporateCardQueryObject → List (List CorporateCardRawRecord))
    (limit : JOpt Nat) (cardIds : JOpt (List String)) (types : JOpt (List String))
    (after : JOpt String) (before : JOpt String) (ids : JOpt (List String)) :
    Dispatched (Except ApiError (List CorporateCardLog)) :=
  restGetList corporateCardResource limit
    (serverPages (corporateCardQueryObject limit cardIds types after before ids))

/-- Embeds exports.page of src/sdk/corporateCard/log/log.js, lines 84-118;
the matching slice of the remote collection is supplied by the modelled
gateway for the query object. -/
def corporateCardPage (matching : List CorporateCardRawRecord) (cursor : JOpt Nat)
    (limit : JOpt Nat) : Dispatched (PageResult CorporateCardLog) :=
  restGetPage corporateCardResource cursor limit matching

/-- Embeds exports.get of src/sdk/utilityPayment/log/log.js, lines 34-53. -/
def utilityPaymentGet
    (fetchById : String → String → AuthContext → Except ApiError UtilityPaymentRawRecord)
    (id : String) (user : AuthContext) : Dispatched (Except ApiError UtilityPaymentLog) :=
  restGetId fetchById utilityPaymentResource id user

/-- Embeds exports.query of src/sdk/utilityPayment/log/log.js, lines
55-82: the destructuring defaults apply before the query object is built. -/
def utilityPaymentQuery
    (serverPages : UtilityPaymentQueryObject → List (List UtilityPaymentRawRecord))
    (limit : JOpt Nat) (after : JOpt String) (before : JOpt String)
    (types : JOpt (List String)) (paymentIds : JOpt (List String)) :
    Dispatched (Except ApiError (List UtilityPaymentLog)) :=
  restGetList utilityPaymentResource limit
    (serverPages (utilityPaymentQueryObject limit after before types paymentIds))

/-- Embeds exports.page of src/sdk/utilityPayment/log/log.js, lines 84-114;
the matching slice of the remote collection is supplied by the modelled
gateway for the query object. -/
def utilityPaymentPage (matching : List UtilityPaymentRawRecord) (cursor : JOpt Nat)
    (limit : JOpt Nat) : Dispatched (PageResult UtilityPaymentLog) :=
  restGetPage utilityPaymentResource cursor limit matching

theorem walkPages_val_length {ρ : Type} (n : Nat) (ps : List (List ρ)) :
    (walkPages (.val n) ps).length ≤ n := by
  induction ps generalizing n with
  | nil => simp [walkPages]
  | cons p ps ih =>
    simp only [walkPages, List.length_append]
    have h1 : (p.take n).length ≤ n := by
      simp [List.length_take]
    have h2 := ih (n - (p.take n).length)
    omega

theorem walkPages_null_join {ρ : Type} (ps : List (List ρ)) :
    walkPages .null ps = ps.flatten := by
  induction ps with
  | nil => rfl
  | cons p ps ih => simp [walkPages, ih]

theorem walkPages_undef_join {ρ : Type} (ps : List (List ρ)) :
    walkPages .undef ps = ps.flatten := by
  induction ps with
  | nil => rfl
  | cons p ps ih => simp [walkPages, ih]

theorem mem_walkPages {ρ : Type} {limit : JOpt Nat} {ps : List (List ρ)} {x : ρ}
    (hx : x ∈ walkPages limit ps) : x ∈ ps.flatten := by
  induction ps generalizing limit with
  | nil => cases limit <;> simp [walkPages] at hx
  | cons p ps ih =>
    cases limit with
    | val n =>
      simp only [walkPages, List.mem_append] at hx
      rcases hx with h | h
      · exact List.mem_flatten.mpr ⟨p, by simp, List.take_subset n p h⟩
      · have := ih h
        simp only [List.flatten, List.mem_append]
        exact Or.inr this
    | null =>
      simp only [walkPages, List.mem_append] at hx
      simp only [List.flatten, List.mem_append]
      rcases hx with h | h
      · exact Or.inl h
      · exact Or.inr (ih h)
    | undef =>
      simp only [walkPages, List.mem_append] at hx
      simp only [List.flatten, List.mem_append]
      rcases hx with h | h
      · exact Or.inl h
      · exact Or.inr (ih h)

theorem mapRecords_ok_length {ρ ε : Type} {f : ρ → Except ApiError ε}
    {l : List ρ} {ys : List ε} (h : mapRecords f l = .ok ys) :
    ys.length = l.length := by
  induction l generalizing ys with
  | nil =>
    simp only [mapRecords] at h
    cases h
    rfl
  | cons x xs ih =>
    simp only [mapRecords] at h
    cases hfx : f x with
    | error e => rw [hfx] at h; cases h
    | ok y =>
      rw [hfx] at h
      cases hrec : mapRecords f xs with
      | error e => rw [hrec] at h; cases h
      | ok zs =>
        rw [hrec] at h
        cases h
        simp [ih hrec]

theorem mapRecords_ok_mem {ρ ε : Type} {f : ρ → Except ApiError ε}
    {l : List ρ} {ys : List ε} (h : mapRecords f l = .ok ys) {y : ε}
    (hy : y ∈ ys) : ∃ x, x ∈ l ∧ f x = .ok y := by
  induction l generalizing ys with
  | nil =>
    simp only [mapRecords] at h
    cases h
    cases hy
  | cons x xs ih =>
    simp only [mapRecords] at h
    cases hfx : f x with
    | error e => rw [hfx] at h; cases h
    | ok z =>
      rw [hfx] at h
      cases hrec : mapRecords f xs with
      | error e => rw [hrec] at h; cases h
      | ok zs =>
        rw [hrec] at h
        cases h
        rcases List.mem_cons.mp hy with h1 | h1
        · exact ⟨x, by simp, by rw [hfx, h1]⟩
        · rcases ih hrec h1 with ⟨w, hw, hfw⟩
          exact ⟨w, by simp [hw], hfw⟩

theorem mapRecords_error_cause {ρ ε : Type} {f : ρ → Except ApiError ε}
    {l : List ρ} {e : ApiError} (h : mapRecords f l = .error e) :
    ∃ x, x ∈ l ∧ f x = .error e := by
  induction l with
  | nil => simp only [mapRecords] at h; cases h
  | cons x xs ih =>
    simp only [mapRecords] at h
    cases hfx : f x with
    | error e1 =>
      rw [hfx] at h
      cases h
      exact ⟨x, by simp, hfx⟩
    | ok y =>
      rw [hfx] at h
      cases hrec : mapRecords f xs with
      | error e1 =>
        rw [hrec] at h
        cases h
        rcases ih hrec with ⟨w, hw, hfw⟩
        exact ⟨w, by simp [hw], hfw⟩
      | ok zs => rw [hrec] at h; cases h

theorem invoiceConstruct_ok_fields {r : InvoiceRawRecord} {log : InvoiceLog}
    (h : InvoiceLog.construct r = .ok log) :
    log.id = r.id ∧ log.type = r.type ∧ log.errors = r.errors ∧
    log.invoice = r.invoice ∧ checkDate r.created = some log.created := by
  unfold InvoiceLog.construct at h
  cases hc : checkDate r.created with
  | none => rw [hc] at h; cases h
  | some ts =>
    rw [hc] at h
    cases h
    exact ⟨rfl, rfl, rfl, rfl, hc.symm ▸ rfl⟩

theorem restGetPage_spec {ρ ε : Type} (res : Resource ρ ε) (cursor limit : JOpt Nat)
    (matching : List ρ) :
    (restGetPage res cursor limit matching).result.gatewayCalls = 1 ∧
    (∀ es, (restGetPage res cursor limit matching).result.entities = .ok es →
       es.length ≤ 100) ∧
    ((restGetPage res cursor limit matching).result.cursor = .null →
       ∀ es, (restGetPage res cursor limit matching).result.entities = .ok es →
         matching.length ≤ cursorStart cursor + es.length) := by
  have hcap : pageCap limit ≤ 100 := by
    cases limit <;> simp [pageCap]
  refine ⟨rfl, ?_, ?_⟩
  · intro es hes
    simp only [restGetPage] at hes
    have hlen := mapRecords_ok_length hes
    have hchunk : ((matching.drop (cursorStart cursor)).take (pageCap limit)).length
        ≤ pageCap limit := by
      simp [List.length_take]
    omega
  · intro hc es hes
    simp only [restGetPage] at hc hes
    have hlen := mapRecords_ok_length hes
    by_cases hlt : cursorStart cursor +
        ((matching.drop (cursorStart cursor)).take (pageCap limit)).length < matching.length
    · rw [if_pos hlt] at hc
      cases hc
    · omega

/-- Claim C8: the utilityPayment Log constructor takes its fields as the
positional parameters created, type, errors, payment, id — see the
signature of UtilityPaymentLog.construct, against the single destructured
record taken by InvoiceLog.construct and CorporateCardLog.construct — and
a call that omits the trailing id argument gets the parameter default null,
so the constructed object's id field is null. -/
theorem claim8_positional_id_default :
    ∀ (created type : String) (errors : List String) (payment : String),
      UtilityPaymentLog.constructNoId created type errors payment
        = UtilityPaymentLog.construct created type errors payment JOpt.null ∧
      (UtilityPaymentLog.constructNoId created type errors payment).id = JOpt.null := by
  intro created type errors payment
  exact ⟨rfl, rfl⟩

/-- Claim C9: a constructed corporateCard Log holds exactly the fields id,
card, type and created (the whole field list of CorporateCardLog), and any
errors entry carried by the raw record is discarded: two raw records that
differ only in their errors entry construct the same object, so the errors
value is never readable from the result. -/
theorem claim9_errors_discarded :
    ∀ (id : JOpt String) (card type created : String) (e1 e2 : JOpt (List String)),
      CorporateCardLog.construct ⟨id, card, type, created, e1⟩
        = CorporateCardLog.construct ⟨id, card, type, created, e2⟩ := by
  intro id card type created e1 e2
  rfl

/-- Claim C10: every operation of each log module passes that module's
fixed resource descriptor — the name InvoiceLog, corporateCardLog or
UtilityPaymentLog paired with its Log class constructor — to the rest
layer, so each call dispatches to its own kind's endpoint namespace and
never another's. -/
theorem claim10_fixed_resource_dispatch :
    invoiceResource.name = "InvoiceLog" ∧
    invoiceResource.construct = InvoiceLog.construct ∧
    corporateCardResource.name = "corporateCardLog" ∧
    corporateCardResource.construct = CorporateCardLog.construct ∧
    utilityPaymentResource.name = "UtilityPaymentLog" ∧
    utilityPaymentResource.construct = UtilityPaymentLog.constructRecord ∧
    (∀ f id u, (invoiceGet f id u).resourceName = "InvoiceLog") ∧
    (∀ sp l a b t iv, (invoiceQuery sp l a b t iv).resourceName = "InvoiceLog") ∧
    (∀ r c l a b t iv, (invoicePage r c l a b t iv).resourceName = "InvoiceLog") ∧
    (∀ f id u, (invoicePdf f id u).resourceName = "InvoiceLog") ∧
    (∀ f id u, (corporateCardGet f id u).resourceName = "corporateCardLog") ∧
    (∀ sp l ci t a b i, (corporateCardQuery sp l ci t a b i).resourceName = "corporateCardLog") ∧
    (∀ m c l, (corporateCardPage m c l).resourceName = "corporateCardLog") ∧
    (∀ f id u, (utilityPaymentGet f id u).resourceName = "UtilityPaymentLog") ∧
    (∀ sp l a b t p, (utilityPaymentQuery sp l a b t p).resourceName = "UtilityPaymentLog") ∧
    (∀ m c l, (utilityPaymentPage m c l).resourceName = "UtilityPaymentLog") :=
  ⟨rfl, rfl, rfl, rfl, rfl, rfl,
   fun _ _ _ => rfl, fun _ _ _ _ _ _ => rfl, fun _ _ _ _ _ _ _ => rfl,
   fun _ _ _ => rfl, fun _ _ _ => rfl, fun _ _ _ _ _ _ _ => rfl,
   fun _ _ _ => rfl, fun _ _ _ => rfl, fun _ _ _ _ _ _ => rfl,
   fun _ _ _ => rfl⟩

/-- Claim C1, counterexample: the utilityPayment Log constructor does not
parse the created string and raises nothing. On the unparseable created
string not-a-date it succeeds, storing the string verbatim, where the claim
demands a ValidationError for every resource kind. -/
theorem claim1_counterexample :
    checkDatetime "not-a-date" = none ∧
    UtilityPaymentLog.construct "not-a-date" "success" [] "payment-1" (JOpt.val "5656")
      = ⟨JOpt.val "5656", "not-a-date", "success", [], "payment-1"⟩ ∧
    UtilityPaymentLog.constructRecord ⟨"not-a-date", "success", [], "payment-1", JOpt.val "5656"⟩
      = Except.ok ⟨JOpt.val "5656", "not-a-date", "success", [], "payment-1"⟩ :=
  ⟨by decide, rfl, rfl⟩

/-- Claim C1 as amended: for InvoiceLog and corporateCardLog, construction
parses the created string and raises ValidationError exactly when the
string is unparseable; the UtilityPaymentLog constructor stores created
verbatim and never raises; and an invoice get call can fail only with an
error the gateway raised or with the construction ValidationError. -/
theorem claim1_amended :
    (∀ r : InvoiceRawRecord,
       (checkDate r.created = none →
          InvoiceLog.construct r = .error .validationError) ∧
       (∀ ts, checkDate r.created = some ts →
          InvoiceLog.construct r = .ok ⟨r.id, ts, r.type, r.errors, r.invoice⟩)) ∧
    (∀ r : CorporateCardRawRecord,
       (checkDatetime r.created = none →
          CorporateCardLog.construct r = .error .validationError) ∧
       (∀ ts, checkDatetime r.created = some ts →
          CorporateCardLog.construct r = .ok ⟨r.id, r.card, r.type, ts⟩)) ∧
    (∀ r : UtilityPaymentRawRecord,
       UtilityPaymentLog.constructRecord r
         = .ok ⟨r.id, r.created, r.type, r.errors, r.payment⟩) ∧
    (∀ fetch id user e, (invoiceGet fetch id user).result = .error e →
       fetch "InvoiceLog" id user = .error e ∨ e = .validationError) := by
  refine ⟨?_, ?_, ?_, ?_⟩
  · intro r
    constructor
    · intro hn
      unfold InvoiceLog.construct
      rw [hn]
    · intro ts hs
      unfold InvoiceLog.construct
      rw [hs]
  · intro r
    constructor
    · intro hn
      unfold CorporateCardLog.construct
      rw [hn]
    · intro ts hs
      unfold CorporateCardLog.construct
      rw [hs]
  · intro r
    rfl
  · intro fetch id user e h
    simp only [invoiceGet, restGetId, invoiceResource] at h
    cases hf : fetch "InvoiceLog" id user with
    | error e1 =>
      rw [hf] at h
      dsimp only at h
      cases h
      exact Or.inl rfl
    | ok r =>
      rw [hf] at h
      dsimp only [InvoiceLog.construct] at h
      cases hc : checkDate r.created with
      | none =>
        rw [hc] at h
        dsimp only at h
        cases h
        exact Or.inr rfl
      | some ts =>
        rw [hc] at h
        dsimp only at h
        cases h

/-- Claim C1 witness: the amended statement applied at concrete inputs —
an invoice record with unparseable created fails with ValidationError, a
corporateCard record with a parseable datetime succeeds. -/
theorem claim1_witness :
    InvoiceLog.construct ⟨"bogus", "paid", [], "invoice-1", JOpt.val "1"⟩
      = .error .validationError ∧
    CorporateCardLog.construct ⟨JOpt.val "2", "card-1", "blocked", "2020-03-10", JOpt.null⟩
      = .ok ⟨JOpt.val "2", "card-1", "blocked", ⟨2020, 3, 10, 0, 0, 0, 0⟩⟩ :=
  ⟨(claim1_amended.1 ⟨"bogus", "paid", [], "invoice-1", JOpt.val "1"⟩).1 (by decide),
   (claim1_amended.2.1 ⟨JOpt.val "2", "card-1", "blocked", "2020-03-10", JOpt.null⟩).2
     ⟨2020, 3, 10, 0, 0, 0, 0⟩ (by decide)⟩

/-- Claim C2, counterexample: constructing a utilityPayment Log from the
valid record with created 2020-03-10 10:30:00.000 stores that string
verbatim in the created field, although the string parses to the structured
timestamp, so the created field does not equal the semantically-parsed value
the claim demands for every kind. -/
theorem claim2_counterexample :
    (UtilityPaymentLog.construct "2020-03-10 10:30:00.000" "success" [] "payment-1"
       (JOpt.val "1")).created = "2020-03-10 10:30:00.000" ∧
    checkDatetime "2020-03-10 10:30:00.000" = some ⟨2020, 3, 10, 10, 30, 0, 0⟩ :=
  ⟨rfl, by decide⟩

/-- Claim C2 as amended: for invoice and corporateCard, constructing a Log
from a valid raw record returns every field verbatim except created, which
equals the parsed value of the input string; for utilityPayment every
field, created included, is returned verbatim. -/
theorem claim2_amended :
    (∀ (r : InvoiceRawRecord) ts, checkDate r.created = some ts →
       InvoiceLog.construct r = .ok ⟨r.id, ts, r.type, r.errors, r.invoice⟩) ∧
    (∀ (r : CorporateCardRawRecord) ts, checkDatetime r.created = some ts →
       CorporateCardLog.construct r = .ok ⟨r.id, r.card, r.type, ts⟩) ∧
    (∀ (created type : String) (errors : List String) (payment : String) (id : JOpt String),
       UtilityPaymentLog.construct created type errors payment id
         = ⟨id, created, type, errors, payment⟩) := by
  refine ⟨?_, ?_, ?_⟩
  · intro r ts hs
    unfold InvoiceLog.construct
    rw [hs]
  · intro r ts hs
    unfold CorporateCardLog.construct
    rw [hs]
  · intro created type errors payment id
    rfl

/-- Claim C3: for every gateway outcome, get returns the fetch-by-id result
mapped through the module's Log class, every gateway error — NotFound,
AuthError, TransportError alike — is propagated unchanged, and a NotFound
outcome never turns into a successful value. Stated for the three modules. -/
theorem claim3_get_propagation :
    (∀ fetch (id : String) (user : AuthContext),
       (∀ e, fetch "InvoiceLog" id user = Except.error e →
          (invoiceGet fetch id user).result = Except.error e) ∧
       (∀ r, fetch "InvoiceLog" id user = Except.ok r →
          (invoiceGet fetch id user).result = InvoiceLog.construct r) ∧
       (∀ logs, fetch "InvoiceLog" id user = Except.error ApiError.notFound →
          (invoiceGet fetch id user).result ≠ Except.ok logs)) ∧
    (∀ fetch (id : String) (user : AuthContext),
       (∀ e, fetch "corporateCardLog" id user = Except.error e →
          (corporateCardGet fetch id user).result = Except.error e) ∧
       (∀ r, fetch "corporateCardLog" id user = Except.ok r →
          (corporateCardGet fetch id user).result = CorporateCardLog.construct r) ∧
       (∀ logs, fetch "corporateCardLog" id user = Except.error ApiError.notFound →
          (corporateCardGet fetch id user).result ≠ Except.ok logs)) ∧
    (∀ fetch (id : String) (user : AuthContext),
       (∀ e, fetch "UtilityPaymentLog" id user = Except.error e →
          (utilityPaymentGet fetch id user).result = Except.error e) ∧
       (∀ r, fetch "UtilityPaymentLog" id user = Except.ok r →
          (utilityPaymentGet fetch id user).result = UtilityPaymentLog.constructRecord r) ∧
       (∀ logs, fetch "UtilityPaymentLog" id user = Except.error ApiError.notFound →
          (utilityPaymentGet fetch id user).result ≠ Except.ok logs)) := by
  refine ⟨?_, ?_, ?_⟩
  · intro fetch id user
    refine ⟨?_, ?_, ?_⟩
    · intro e he
      simp only [invoiceGet, restGetId, invoiceResource]
      rw [he]
    · intro r hr
      simp only [invoiceGet, restGetId, invoiceResource]
      rw [hr]
    · intro logs hnf
      simp only [invoiceGet, restGetId, invoiceResource]
      rw [hnf]
      exact fun hok => Except.noConfusion hok
  · intro fetch id user
    refine ⟨?_, ?_, ?_⟩
    · intro e he
      simp only [corporateCardGet, restGetId, corporateCardResource]
      rw [he]
    · intro r hr
      simp only [corporateCardGet, restGetId, corporateCardResource]
      rw [hr]
    · intro logs hnf
      simp only [corporateCardGet, restGetId, corporateCardResource]
      rw [hnf]
      exact fun hok => Except.noConfusion hok
  · intro fetch id user
    refine ⟨?_, ?_, ?_⟩
    · intro e he
      simp only [utilityPaymentGet, restGetId, utilityPaymentResource]
      rw [he]
    · intro r hr
      simp only [utilityPaymentGet, restGetId, utilityPaymentResource]
      rw [hr]
    · intro logs hnf
      simp only [utilityPaymentGet, restGetId, utilityPaymentResource]
      rw [hnf]
      exact fun hok => Except.noConfusion hok

/-- Claim C3 witness: the propagation applied to concrete gateways — one
that raises NotFound on every id and one that returns a fixed record. -/
theorem claim3_witness :
    (invoiceGet (fun _ _ _ => Except.error ApiError.notFound) "nonexistent-id" JOpt.null).result
      = Except.error ApiError.notFound ∧
    (utilityPaymentGet
       (fun _ _ _ => Except.ok ⟨"2020-03-10", "success", [], "payment-1", JOpt.val "7"⟩)
       "7" JOpt.null).result
      = Except.ok ⟨JOpt.val "7", "2020-03-10", "success", [], "payment-1"⟩ :=
  ⟨(claim3_get_propagation.1 (fun _ _ _ => Except.error ApiError.notFound)
      "nonexistent-id" JOpt.null).1 ApiError.notFound rfl,
   (claim3_get_propagation.2.2 (fun _ _ _ => Except.ok
      ⟨"2020-03-10", "success", [], "payment-1", JOpt.val "7"⟩) "7" JOpt.null).2.1
      ⟨"2020-03-10", "success", [], "payment-1", JOpt.val "7"⟩ rfl⟩

/-- Claim C4: with an integer limit n, query yields at most n entities for
every pagination the gateway chooses; with a null or absent limit the
client truncates nothing — the result maps every record of every page the
gateway serves, ending only when those pages are exhausted. Stated for the
invoice and utilityPayment modules the claim cites. -/
theorem claim4_query_limit :
    (∀ sp (n : Nat) a b t iv logs,
       (invoiceQuery sp (.val n) a b t iv).result = Except.ok logs →
       logs.length ≤ n) ∧
    (∀ sp a b t iv,
       (invoiceQuery sp .null a b t iv).result
         = mapRecords InvoiceLog.construct
             ((sp (invoiceQueryObject .null a b t iv)).flatten)) ∧
    (∀ sp a b t iv,
       (invoiceQuery sp .undef a b t iv).result
         = mapRecords InvoiceLog.construct
             ((sp (invoiceQueryObject .undef a b t iv)).flatten)) ∧
    (∀ sp (n : Nat) a b t p logs,
       (utilityPaymentQuery sp (.val n) a b t p).result = Except.ok logs →
       logs.length ≤ n) ∧
    (∀ sp a b t p,
       (utilityPaymentQuery sp .null a b t p).result
         = mapRecords UtilityPaymentLog.constructRecord
             ((sp (utilityPaymentQueryObject .null a b t p)).flatten)) := by
  refine ⟨?_, ?_, ?_, ?_, ?_⟩
  · intro sp n a b t iv logs h
    simp only [invoiceQuery, restGetList, invoiceResource] at h
    have h1 := mapRecords_ok_length h
    have h2 := walkPages_val_length n (sp (invoiceQueryObject (.val n) a b t iv))
    omega
  · intro sp a b t iv
    simp only [invoiceQuery, restGetList, invoiceResource, walkPages_null_join]
  · intro sp a b t iv
    simp only [invoiceQuery, restGetList, invoiceResource, walkPages_undef_join]
  · intro sp n a b t p logs h
    simp only [utilityPaymentQuery, restGetList, utilityPaymentResource] at h
    have h1 := mapRecords_ok_length h
    have h2 := walkPages_val_length n
      (sp (utilityPaymentQueryObject (.val n) a b t p))
    omega
  · intro sp a b t p
    simp only [utilityPaymentQuery, restGetList, utilityPaymentResource, walkPages_null_join]

/-- Claim C4 witness: a gateway serving two one-record pages, queried with
limit 1, yields exactly one entity. -/
theorem claim4_witness :
    (invoiceQuery
       (fun _ => [[⟨"2020-03-10", "paid", [], "invoice-1", JOpt.val "1"⟩],
                  [⟨"2020-03-11", "registered", [], "invoice-2", JOpt.val "2"⟩]])
       (.val 1) .undef .undef .undef .undef).result
      = Except.ok [⟨JOpt.val "1", ⟨2020, 3, 10, 0, 0, 0, 0⟩, "paid", [], "invoice-1"⟩] ∧
    [(⟨JOpt.val "1", ⟨2020, 3, 10, 0, 0, 0, 0⟩, "paid", [], "invoice-1"⟩ : InvoiceLog)].length ≤ 1 :=
  ⟨by decide,
   claim4_query_limit.1
     (fun _ => [[⟨"2020-03-10", "paid", [], "invoice-1", JOpt.val "1"⟩],
                [⟨"2020-03-11", "registered", [], "invoice-2", JOpt.val "2"⟩]])
     1 .undef .undef .undef .undef
     [⟨JOpt.val "1", ⟨2020, 3, 10, 0, 0, 0, 0⟩, "paid", [], "invoice-1"⟩] (by decide)⟩

/-- Claim C5: a page call performs exactly one gateway call, returns at
most 100 entities, and a null cursor in the result means the matching
collection holds nothing beyond the records already delivered; the
operation never auto-paginates into a second call. Stated for the three
modules. -/
theorem claim5_page_single_call :
    (∀ remote cursor limit a b t iv,
       (invoicePage remote cursor limit a b t iv).result.gatewayCalls = 1 ∧
       (∀ logs, (invoicePage remote cursor limit a b t iv).result.entities
            = Except.ok logs → logs.length ≤ 100) ∧
       ((invoicePage remote cursor limit a b t iv).result.cursor = JOpt.null →
          ∀ logs, (invoicePage remote cursor limit a b t iv).result.entities
              = Except.ok logs →
            (remote.filter (invoiceMatches (invoiceQueryObject limit a b t iv))).length
              ≤ cursorStart cursor + logs.length)) ∧
    (∀ matching cursor limit,
       (corporateCardPage matching cursor limit).result.gatewayCalls = 1 ∧
       (∀ logs, (corporateCardPage matching cursor limit).result.entities
            = Except.ok logs → logs.length ≤ 100) ∧
       ((corporateCardPage matching cursor limit).result.cursor = JOpt.null →
          ∀ logs, (corporateCardPage matching cursor limit).result.entities
              = Except.ok logs →
            matching.length ≤ cursorStart cursor + logs.length)) ∧
    (∀ matching cursor limit,
       (utilityPaymentPage matching cursor limit).result.gatewayCalls = 1 ∧
       (∀ logs, (utilityPaymentPage matching cursor limit).result.entities
            = Except.ok logs → logs.length ≤ 100) ∧
       ((utilityPaymentPage matching cursor limit).result.cursor = JOpt.null →
          ∀ logs, (utilityPaymentPage matching cursor limit).result.entities
              = Except.ok logs →
            matching.length ≤ cursorStart cursor + logs.length)) :=
  ⟨fun remote cursor limit a b t iv =>
     restGetPage_spec invoiceResource cursor limit
       (remote.filter (invoiceMatches (invoiceQueryObject limit a b t iv))),
   fun matching cursor limit =>
     restGetPage_spec corporateCardResource cursor limit matching,
   fun matching cursor limit =>
     restGetPage_spec utilityPaymentResource cursor limit matching⟩

/-- Claim C5 witness: a one-record matching collection paged from the start
with no limit — one gateway call, one entity, and the null result cursor
certifies exhaustion. -/
theorem claim5_witness :
    (corporateCardPage [⟨JOpt.val "1", "card-1", "blocked", "2020-03-10", JOpt.null⟩]
       JOpt.null JOpt.null).result.gatewayCalls = 1 ∧
    ([(⟨JOpt.val "1", "card-1", "blocked", "2020-03-10", JOpt.null⟩ :
        CorporateCardRawRecord)].length
      ≤ cursorStart JOpt.null +
        [(⟨JOpt.val "1", "card-1", "blocked", ⟨2020, 3, 10, 0, 0, 0, 0⟩⟩ :
           CorporateCardLog)].length) :=
  ⟨(claim5_page_single_call.2.1
      [⟨JOpt.val "1", "card-1", "blocked", "2020-03-10", JOpt.null⟩]
      JOpt.null JOpt.null).1,
   (claim5_page_single_call.2.1
      [⟨JOpt.val "1", "card-1", "blocked", "2020-03-10", JOpt.null⟩]
      JOpt.null JOpt.null).2.2 (by decide)
      [⟨JOpt.val "1", "card-1", "blocked", ⟨2020, 3, 10, 0, 0, 0, 0⟩⟩] (by decide)⟩

/-- Claim C6: when the gateway serves exactly the records matching the
query, every entity yielded by a query with a types filter has a type
belonging to the filter set; and on the spec's example records, querying
types paid yields exactly the entity with id 1. -/
theorem claim6_types_filter :
    (∀ (sp : InvoiceQueryObject → List (List InvoiceRawRecord))
       (limit : JOpt Nat) (a b : JOpt String) (T : List String)
       (iv : JOpt (List String)) (remote : List InvoiceRawRecord),
       (sp (invoiceQueryObject limit a b (JOpt.val T) iv)).flatten
         = remote.filter (invoiceMatches (invoiceQueryObject limit a b (JOpt.val T) iv)) →
       ∀ logs, (invoiceQuery sp limit a b (JOpt.val T) iv).result = Except.ok logs →
       ∀ log ∈ logs, log.type ∈ T) ∧
    (invoiceQuery
       (fun q => [List.filter (invoiceMatches q)
          [⟨"2020-03-10 10:30:00.000", "paid", [], "invoice-1", JOpt.val "1"⟩,
           ⟨"2020-03-11 10:30:00.000", "registered", [], "invoice-1", JOpt.val "2"⟩]])
       JOpt.undef JOpt.undef JOpt.undef (JOpt.val ["paid"]) JOpt.undef).result
      = Except.ok [⟨JOpt.val "1", ⟨2020, 3, 10, 10, 30, 0, 0⟩, "paid", [], "invoice-1"⟩] := by
  constructor
  · intro sp limit a b T iv remote hp logs hok log hmem
    simp only [invoiceQuery, restGetList, invoiceResource] at hok
    obtain ⟨r, hr, hcon⟩ := mapRecords_ok_mem hok hmem
    have hr2 : r ∈ (sp (invoiceQueryObject limit a b (JOpt.val T) iv)).flatten :=
      mem_walkPages hr
    rw [hp] at hr2
    have hm := (List.mem_filter.mp hr2).2
    simp only [invoiceMatches, invoiceQueryObject, Bool.and_eq_true] at hm
    have hfields := invoiceConstruct_ok_fields hcon
    rw [hfields.2.1]
    simpa using hm.1.1.1
  · decide

/-- Claim C6 witness: the membership statement applied to the example
gateway — the single yielded entity's type lies in the filter set. -/
theorem claim6_witness :
    (⟨JOpt.val "1", ⟨2020, 3, 10, 10, 30, 0, 0⟩, "paid", [], "invoice-1"⟩ :
       InvoiceLog).type ∈ ["paid"] :=
  claim6_types_filter.1
    (fun q => [List.filter (invoiceMatches q)
       [⟨"2020-03-10 10:30:00.000", "paid", [], "invoice-1", JOpt.val "1"⟩,
        ⟨"2020-03-11 10:30:00.000", "registered", [], "invoice-1", JOpt.val "2"⟩]])
    JOpt.undef JOpt.undef JOpt.undef ["paid"] JOpt.undef
    [⟨"2020-03-10 10:30:00.000", "paid", [], "invoice-1", JOpt.val "1"⟩,
     ⟨"2020-03-11 10:30:00.000", "registered", [], "invoice-1", JOpt.val "2"⟩]
    (by decide)
    [⟨JOpt.val "1", ⟨2020, 3, 10, 10, 30, 0, 0⟩, "paid", [], "invoice-1"⟩]
    (by decide)
    ⟨JOpt.val "1", ⟨2020, 3, 10, 10, 30, 0, 0⟩, "paid", [], "invoice-1"⟩
    (by simp)

/-- Claim C7, counterexample: in the invoice module, whose query
destructures without defaults, calling query with limit omitted builds a
query object whose limit field is undefined, while calling it with limit
explicitly null builds one whose limit field is null — the two objects
passed to the gateway are not the same. -/
theorem claim7_counterexample :
    invoiceQueryObject JOpt.undef JOpt.undef JOpt.undef JOpt.undef JOpt.undef
      ≠ invoiceQueryObject JOpt.null JOpt.undef JOpt.undef JOpt.undef JOpt.undef := by
  decide

/-- Claim C7 as amended: in utilityPayment, whose destructuring defaults
every filter to null, omitting a field and passing null build the same
query object; in the modules without defaults the built objects differ —
undefined against null — but the two are equivalent in effect: every
consumption of a filter field (gateway matching, the limit walk, the cursor
position, the page cap) treats an undefined field and a null field
identically. -/
theorem claim7_amended :
    (∀ l a b t p,
       utilityPaymentQueryObject JOpt.undef a b t p
         = utilityPaymentQueryObject JOpt.null a b t p ∧
       utilityPaymentQueryObject l JOpt.undef b t p
         = utilityPaymentQueryObject l JOpt.null b t p ∧
       utilityPaymentQueryObject l a JOpt.undef t p
         = utilityPaymentQueryObject l a JOpt.null t p ∧
       utilityPaymentQueryObject l a b JOpt.undef p
         = utilityPaymentQueryObject l a b JOpt.null p ∧
       utilityPaymentQueryObject l a b t JOpt.undef
         = utilityPaymentQueryObject l a b t JOpt.null) ∧
    (∀ lim a b t iv (r : InvoiceRawRecord),
       invoiceMatches (invoiceQueryObject lim JOpt.undef b t iv) r
         = invoiceMatches (invoiceQueryObject lim JOpt.null b t iv) r ∧
       invoiceMatches (invoiceQueryObject lim a JOpt.undef t iv) r
         = invoiceMatches (invoiceQueryObject lim a JOpt.null t iv) r ∧
       invoiceMatches (invoiceQueryObject lim a b JOpt.undef iv) r
         = invoiceMatches (invoiceQueryObject lim a b JOpt.null iv) r ∧
       invoiceMatches (invoiceQueryObject lim a b t JOpt.undef) r
         = invoiceMatches (invoiceQueryObject lim a b t JOpt.null) r) ∧
    (∀ (ps : List (List InvoiceRawRecord)),
       walkPages JOpt.undef ps = walkPages JOpt.null ps) ∧
    cursorStart JOpt.undef = cursorStart JOpt.null ∧
    pageCap JOpt.undef = pageCap JOpt.null := by
  refine ⟨?_, ?_, ?_, rfl, rfl⟩
  · intro l a b t p
    exact ⟨rfl, rfl, rfl, rfl, rfl⟩
  · intro lim a b t iv r
    exact ⟨rfl, rfl, rfl, rfl⟩
  · intro ps
    rw [walkPages_undef_join, walkPages_null_join]

/-- Claim C2 witness: the amended round-trip applied at a concrete valid
invoice record. -/
theorem claim2_witness :
    InvoiceLog.construct ⟨"2020-03-10 10:30:00.000", "paid", ["late"], "invoice-7", JOpt.val "9"⟩
      = .ok ⟨JOpt.val "9", ⟨2020, 3, 10, 10, 30, 0, 0⟩, "paid", ["late"], "invoice-7"⟩ :=
  claim2_amended.1 ⟨"2020-03-10 10:30:00.000", "paid", ["late"], "invoice-7", JOpt.val "9"⟩
    ⟨2020, 3, 10, 10, 30, 0, 0⟩ (by decide)

end SdkNode
